import Mathlib

/-!
Verification development for the slickdeal-finder-proxy repository.

The repository contains two JavaScript source files, `src/server.js` and an
unnamed file `src/unnamed/part_000` (itself headed by a comment naming it
server.js; it is an alternate revision of the same script).  The core logic
embedded here is:

* the SSRF-defense fetch subsystem: `isPrivateIPv4`, `isPrivateIPv6`,
  `isPrivateIP`, `hostIsSafe` and `safeHttpGet` (identical in both files);
* the tool-calling orchestration loop of the `POST /deal-search` handler,
  which differs between the two files (step budget 6 vs 8, and whether the
  assistant message is appended to the history before its tool answers);
* the `http_get` tool dispatch expression `max_bytes || 200000`.

Effectful JavaScript is embedded by making the environment explicit:

* DNS resolution (`resolve4`/`resolve6`, each with `.catch(() => []))`) is a
  `Dns` record of two pure functions giving the post-catch address lists;
* the network (`fetch` with `redirect: "manual"`) is a pure oracle
  `Url -> Except String Response`; a thrown transport error is the
  `Except.error` case carrying the stringified exception;
* a URL string is a `UrlStr`: either `invalid` (the `new URL` constructor
  throws) or `valid` with the parsed protocol, hostname and remainder;
  the redirect `location` header is pre-resolved against the current URL
  (`new URL(loc, url)`), and carries `Except.error` when that resolution
  itself throws;
* the OpenAI chat-completion service is a pair of oracles
  `List ChatMsg -> CompResp` (the tools-mode call and the
  `response_format: json_object` retry call);
* `JSON.parse` on the final answer is an oracle `String -> Option String`
  (`none` = throws);
* response bodies and retained body text are byte lists (`List Nat`); the
  UTF-8 `TextDecoder` step is byte-transparent in this model, so `text`
  records exactly the bytes retained by `buf.slice`.

`safeHttpGetGo` additionally records, as explicit observations, the list of
URLs actually passed to `fetch` and the list of hostnames actually submitted
to DNS resolution, so that the no-request-ever-sent properties are statable.
-/

/-- An IPv4 address as four octets (the dotted-quad string split on a dot and
mapped through Number in `isPrivateIPv4`). -/
structure IPv4 where
  a : Nat
  b : Nat
  c : Nat
  d : Nat
deriving DecidableEq

/-- A resolved address as classified by `net.isIP`: an IPv4 address, an IPv6
textual address, or a string that is neither (for which `net.isIP` returns
0 and `isPrivateIP` returns false). -/
inductive Addr where
  | v4 (ip : IPv4)
  | v6 (ip : String)
  | other (s : String)
deriving DecidableEq

/-- The DNS environment: the `resolve4` and `resolve6` results for each
hostname, after the `.catch(() => [])` in `hostIsSafe` (so a failed
resolution is an empty list). -/
structure Dns where
  resolve4 : String → List IPv4
  resolve6 : String → List String

/-- A successfully parsed URL: the pieces of `new URL(url)` that the fetch
subsystem inspects, plus the remainder of the URL text. -/
structure Url where
  protocol : String
  hostname : String
  rest : String
deriving DecidableEq

/-- A URL string as seen by `new URL`: either the constructor throws
(`invalid`) or it yields a parsed `Url`. -/
inductive UrlStr where
  | invalid (s : String)
  | valid (u : Url)
deriving DecidableEq

/-- An HTTP response as observed by `safeHttpGet` under
`redirect: "manual"`: status, the `location` header (pre-resolved against
the current URL; `Except.error` when `new URL(loc, url)` throws), the
`content-type` header, the `r.url` field and the body bytes. -/
structure Response where
  status : Nat
  location : Option (Except String Url)
  contentType : Option String
  respUrl : String
  body : List Nat

/-- The value returned by `safeHttpGet`.  The error returns in the source
carry only `ok`, `status` and `error`; the terminal return carries `ok`,
`status`, `url`, `content_type` and `text`.  Absent fields are `none`. -/
structure FetchResult where
  ok : Bool
  status : Nat
  url : Option String
  content_type : Option String
  text : Option (List Nat)
  error : Option String
deriving DecidableEq

/-- The shape `{ ok: false, status: 0, error: e }` used by every error
return in `safeHttpGet`. -/
def errResult (e : String) : FetchResult :=
  ⟨false, 0, none, none, none, some e⟩

/-- Result of `safeHttpGet` together with the observable effects: the URLs
passed to `fetch` and the hostnames submitted to DNS resolution, in order. -/
structure FetchObs where
  result : FetchResult
  fetched : List Url
  dnsChecked : List String

/-- Whether `needle` occurs at the head of `hay` (character lists). -/
def leadMatch : List Char → List Char → Bool
  | [], _ => true
  | _ :: _, [] => false
  | c :: cs, d :: ds => c == d && leadMatch cs ds

/-- Whether `needle` occurs anywhere inside `hay` (character lists). -/
def containsSub (needle : List Char) : List Char → Bool
  | [] => needle.isEmpty
  | c :: t => leadMatch needle (c :: t) || containsSub needle t

/-- JS `String.prototype.includes`-style substring test. -/
def strContains (hay needle : String) : Bool :=
  containsSub needle.data hay.data

/-- JS `String.prototype.startsWith`. -/
def strStartsWith (s p : String) : Bool :=
  leadMatch p.data s.data

/-- JS `String.prototype.endsWith`. -/
def strEndsWith (s suffix : String) : Bool :=
  leadMatch suffix.data.reverse s.data.reverse

/-- JS `String.prototype.toLowerCase` (ASCII, which covers hostnames). -/
def strToLower (s : String) : String :=
  ⟨s.data.map Char.toLower⟩

/-- Whitespace predicate for `strTrim`. -/
def isWsChar (c : Char) : Bool :=
  c == ' ' || c == '\n' || c == '\t' || c == '\r'

/-- JS `String.prototype.trim`. -/
def strTrim (s : String) : String :=
  ⟨((s.data.dropWhile isWsChar).reverse.dropWhile isWsChar).reverse⟩

/-- JS `String.prototype.slice(0, n)`. -/
def strTake (s : String) (n : Nat) : String :=
  ⟨s.data.take n⟩

/-- The content-type test `/text|json|xml|html/i.test(ct)`: a
case-insensitive search for any of the four fragments. -/
def isTextLike (ct : String) : Bool :=
  let l := strToLower ct
  strContains l "text" || strContains l "json" || strContains l "xml" ||
    strContains l "html"

/-- The `fetch` Response `ok` field: status in the 200-299 range. -/
def respOk (r : Response) : Bool :=
  decide (200 ≤ r.status) && decide (r.status ≤ 299)

/-- Membership of a status in `[301, 302, 303, 307, 308]`. -/
def redirStatus (s : Nat) : Bool :=
  [301, 302, 303, 307, 308].contains s

/-- The literal hostname denylist of `safeHttpGet` (both files, identical):
lowercase the hostname, then compare with `localhost`, `0.0.0.0`, the
`.local` and `.internal` suffixes and `metadata.google.internal`. -/
def hostDenied (hostname : String) : Bool :=
  let hostLower := strToLower hostname
  hostLower == "localhost" || hostLower == "0.0.0.0" ||
    strEndsWith hostLower ".local" || strEndsWith hostLower ".internal" ||
    hostLower == "metadata.google.internal"

/-- The terminal (non-redirect) branch of `safeHttpGet`: read the body,
keep at most `min(maxBytes, buf.byteLength)` bytes when the content type is
text-like, else an empty body, and return status, final URL, content type
and text. -/
def terminalResult (maxBytes : Nat) (r : Response) : FetchResult :=
  let ct := r.contentType.getD ""
  let text : List Nat :=
    if isTextLike ct then r.body.take (min maxBytes r.body.length) else []
  ⟨respOk r, r.status, some r.respUrl, some ct, some text, none⟩

/-- From src/server.js lines 13-22: `isPrivateIPv4`. -/
def isPrivateIPv4 (ip : IPv4) : Bool :=
  ip.a == 10 ||
  (ip.a == 172 && decide (16 ≤ ip.b) && decide (ip.b ≤ 31)) ||
  (ip.a == 192 && ip.b == 168) ||
  (ip.a == 169 && ip.b == 254) ||
  ip == ⟨127, 0, 0, 1⟩

/-- From src/server.js lines 23-34: `isPrivateIPv6`. -/
def isPrivateIPv6 (ip : String) : Bool :=
  ip == "::1" ||
  strStartsWith ip "fc" ||
  strStartsWith ip "fd" ||
  strStartsWith ip "fe8" ||
  strStartsWith ip "fe9" ||
  strStartsWith ip "fea" ||
  strStartsWith ip "feb"

/-- From src/server.js lines 35-39: `isPrivateIP`, dispatching on the
`net.isIP` classification. -/
def isPrivateIP : Addr → Bool
  | Addr.v4 ip => isPrivateIPv4 ip
  | Addr.v6 ip => isPrivateIPv6 ip
  | Addr.other _ => false

/-- From src/server.js lines 40-46: `hostIsSafe`: resolve IPv4 and IPv6
address lists, concatenate; an empty set is treated as safe, otherwise
every address must be non-private. -/
def hostIsSafe (dns : Dns) (hostname : String) : Bool :=
  let a4 := dns.resolve4 hostname
  let a6 := dns.resolve6 hostname
  let ips := a4.map Addr.v4 ++ a6.map Addr.v6
  if ips.length == 0 then true else ips.all fun ip => !isPrivateIP ip

/-- From src/server.js lines 49-112: the body of `safeHttpGet`, with the
`for (let hops = 0; hops < 5; hops++)` loop as fuel recursion (fuel 0 is
loop exit, returning `too_many_redirects`).  Each iteration: parse the URL,
reject non-http(s) protocols, reject denylisted hostnames, run the DNS
safety check, then fetch; a 301/302/303/307/308 status with a location
continues to the next hop, anything else is terminal. -/
def safeHttpGetGo (dns : Dns) (net : Url → Except String Response)
    (maxBytes : Nat) : UrlStr → Nat → FetchObs
  | _, 0 => ⟨errResult "too_many_redirects", [], []⟩
  | UrlStr.invalid _, _ + 1 => ⟨errResult "invalid_url", [], []⟩
  | UrlStr.valid u, fuel + 1 =>
    if u.protocol != "https:" && u.protocol != "http:" then
      ⟨errResult "unsupported_protocol", [], []⟩
    else if hostDenied u.hostname then
      ⟨errResult "blocked_host", [], []⟩
    else if !hostIsSafe dns u.hostname then
      ⟨errResult "private_ip_blocked", [], [u.hostname]⟩
    else
      match net u with
      | Except.error e => ⟨errResult e, [u], [u.hostname]⟩
      | Except.ok r =>
        match (if redirStatus r.status then r.location else none) with
        | some (Except.ok next) =>
          let rest := safeHttpGetGo dns net maxBytes (UrlStr.valid next) fuel
          ⟨rest.result, u :: rest.fetched, u.hostname :: rest.dnsChecked⟩
        | some (Except.error e) => ⟨errResult e, [u], [u.hostname]⟩
        | none => ⟨terminalResult maxBytes r, [u], [u.hostname]⟩

/-- `safeHttpGet(startUrl, maxBytes)` from src/server.js: the loop run with
its hop ceiling of 5. -/
def safeHttpGet (dns : Dns) (net : Url → Except String Response)
    (startUrl : UrlStr) (maxBytes : Nat) : FetchResult :=
  (safeHttpGetGo dns net maxBytes startUrl 5).result

namespace Part000

/-- From src/unnamed/part_000 lines 198-207: `isPrivateIPv4`. -/
def isPrivateIPv4 (ip : IPv4) : Bool :=
  ip.a == 10 ||
  (ip.a == 172 && decide (16 ≤ ip.b) && decide (ip.b ≤ 31)) ||
  (ip.a == 192 && ip.b == 168) ||
  (ip.a == 169 && ip.b == 254) ||
  ip == ⟨127, 0, 0, 1⟩

/-- From src/unnamed/part_000 lines 208-218: `isPrivateIPv6`. -/
def isPrivateIPv6 (ip : String) : Bool :=
  ip == "::1" ||
  strStartsWith ip "fc" ||
  strStartsWith ip "fd" ||
  strStartsWith ip "fe8" ||
  strStartsWith ip "fe9" ||
  strStartsWith ip "fea" ||
  strStartsWith ip "feb"

/-- From src/unnamed/part_000 lines 219-223: `isPrivateIP`. -/
def isPrivateIP : Addr → Bool
  | Addr.v4 ip => isPrivateIPv4 ip
  | Addr.v6 ip => isPrivateIPv6 ip
  | Addr.other _ => false

/-- From src/unnamed/part_000 lines 224-229: `hostIsSafe`. -/
def hostIsSafe (dns : Dns) (hostname : String) : Bool :=
  let a4 := dns.resolve4 hostname
  let a6 := dns.resolve6 hostname
  let ips := a4.map Addr.v4 ++ a6.map Addr.v6
  if ips.length == 0 then true else ips.all fun ip => !isPrivateIP ip

/-- From src/unnamed/part_000 lines 232-292: the body of `safeHttpGet`
(textually identical to the src/server.js copy). -/
def safeHttpGetGo (dns : Dns) (net : Url → Except String Response)
    (maxBytes : Nat) : UrlStr → Nat → FetchObs
  | _, 0 => ⟨errResult "too_many_redirects", [], []⟩
  | UrlStr.invalid _, _ + 1 => ⟨errResult "invalid_url", [], []⟩
  | UrlStr.valid u, fuel + 1 =>
    if u.protocol != "https:" && u.protocol != "http:" then
      ⟨errResult "unsupported_protocol", [], []⟩
    else if hostDenied u.hostname then
      ⟨errResult "blocked_host", [], []⟩
    else if !hostIsSafe dns u.hostname then
      ⟨errResult "private_ip_blocked", [], [u.hostname]⟩
    else
      match net u with
      | Except.error e => ⟨errResult e, [u], [u.hostname]⟩
      | Except.ok r =>
        match (if redirStatus r.status then r.location else none) with
        | some (Except.ok next) =>
          let rest := safeHttpGetGo dns net maxBytes (UrlStr.valid next) fuel
          ⟨rest.result, u :: rest.fetched, u.hostname :: rest.dnsChecked⟩
        | some (Except.error e) => ⟨errResult e, [u], [u.hostname]⟩
        | none => ⟨terminalResult maxBytes r, [u], [u.hostname]⟩

/-- `safeHttpGet` from src/unnamed/part_000, hop ceiling 5. -/
def safeHttpGet (dns : Dns) (net : Url → Except String Response)
    (startUrl : UrlStr) (maxBytes : Nat) : FetchResult :=
  (safeHttpGetGo dns net maxBytes startUrl 5).result

end Part000

/-- Message roles of the chat-completion conversation. -/
inductive Role where
  | system
  | user
  | assistant
  | tool
deriving DecidableEq

/-- A tool-call request carried by an assistant message: opaque id, function
name, and the raw arguments text. -/
structure ToolCall where
  id : String
  name : String
  arguments : String
deriving DecidableEq

/-- A conversation message as pushed onto `messages` by the handler.
`content` is `none` when the JavaScript value is `undefined`; `tool_calls`
is the (possibly empty) tool-call list of an assistant message;
`tool_call_id` correlates a tool message with the request it answers. -/
structure ChatMsg where
  role : Role
  content : Option String
  tool_calls : List ToolCall
  tool_call_id : Option String
deriving DecidableEq

/-- Outcome of one chat-completion request: `fail` when `r.ok` is false
(carrying status and response text), otherwise the extracted
`choices[0].message` content and tool-call list (an absent message is
`reply none []`). -/
inductive CompResp where
  | fail (status : Nat) (body : String)
  | reply (content : Option String) (toolCalls : List ToolCall)

/-- How the deal-search handler concludes after the loop: a 502 relayed
upstream error, a parsed final JSON value, or no final value (`finalJson`
still null), which routes to the fallback envelope. -/
inductive LoopOut where
  | upstream (status : Nat) (detail : String)
  | final (j : String)
  | noFinal
deriving DecidableEq

/-- The orchestration loop state at exit: the final message history, the
outcome, and counts of tools-mode and json-mode completion requests made. -/
structure LoopRes where
  msgs : List ChatMsg
  out : LoopOut
  compCalls : Nat
  jsonCalls : Nat
deriving DecidableEq

/-- The tool answer message pushed for one executed tool call. -/
def toolAnswer (call : ToolCall) (content : String) : ChatMsg :=
  ⟨Role.tool, some content, [], some call.id⟩

/-- The corrective system instruction of src/server.js line 411. -/
def retryInstrServer : String :=
  "Return only a single strict JSON object per the schema. No commentary."

/-- The corrective system instruction of src/unnamed/part_000 line 433. -/
def retryInstrPart : String :=
  "Return only a single strict JSON object per the schema. No markdown, no code fences, no commentary."

/-- The strict-JSON retry of src/server.js lines 407-437: push the
corrective system message and an assistant echo of the malformed content
(possibly undefined), make one json-mode completion request, and attempt to
parse its trimmed content (an absent content fails the parse).  Counts
record the single tools-mode call of the enclosing iteration and this
single json-mode call. -/
def finalizeRetry (compJson : List ChatMsg → CompResp)
    (parse : String → Option String) (msgs : List ChatMsg)
    (echoContent : Option String) : LoopRes :=
  let msgs2 := msgs ++
    [⟨Role.system, some retryInstrServer, [], none⟩,
     ⟨Role.assistant, echoContent, [], none⟩]
  match compJson msgs2 with
  | CompResp.fail st body => ⟨msgs2, LoopOut.upstream st (strTake body 800), 1, 1⟩
  | CompResp.reply c2 _ =>
    match c2.map strTrim with
    | some s2 =>
      match parse s2 with
      | some j => ⟨msgs2, LoopOut.final j, 1, 1⟩
      | none => ⟨msgs2, LoopOut.noFinal, 1, 1⟩
    | none => ⟨msgs2, LoopOut.noFinal, 1, 1⟩

/-- The tool-calling loop of src/server.js lines 344-439, as fuel recursion
on the remaining steps.  Note: when the response carries tool calls, only
the tool answer messages are pushed — the assistant message carrying the
tool-call requests is never appended to the history (unlike the
src/unnamed/part_000 copy).  On a non-tool reply the trimmed content is
parsed (content absent means the parse throws); success ends the loop,
failure runs the single strict-JSON retry.  The tool dispatch itself is
abstracted as `runTool`, the serialized result string for one call. -/
def stepLoop (comp : List ChatMsg → CompResp)
    (compJson : List ChatMsg → CompResp) (runTool : ToolCall → String)
    (parse : String → Option String) : List ChatMsg → Nat → LoopRes
  | msgs, 0 => ⟨msgs, LoopOut.noFinal, 0, 0⟩
  | msgs, fuel + 1 =>
    match comp msgs with
    | CompResp.fail st body => ⟨msgs, LoopOut.upstream st (strTake body 800), 1, 0⟩
    | CompResp.reply content tcs =>
      if tcs.isEmpty then
        match content.map strTrim with
        | some c =>
          match parse c with
          | some j => ⟨msgs, LoopOut.final j, 1, 0⟩
          | none => finalizeRetry compJson parse msgs (some c)
        | none => finalizeRetry compJson parse msgs none
      else
        let toolMsgs := tcs.map fun call => toolAnswer call (runTool call)
        let r := stepLoop comp compJson runTool parse (msgs ++ toolMsgs) fuel
        ⟨r.msgs, r.out, r.compCalls + 1, r.jsonCalls⟩

/-- The src/server.js deal-search loop entry: `for (let step = 0; step < 6;
step++)` over the seeded history. -/
def dealSearchServer (comp compJson : List ChatMsg → CompResp)
    (runTool : ToolCall → String) (parse : String → Option String)
    (seed : List ChatMsg) : LoopRes :=
  stepLoop comp compJson runTool parse seed 6

namespace Part000

/-- The strict-JSON retry of src/unnamed/part_000 lines 428-459; here the
malformed content echoed is always a string (the trims default to the empty
string via the or-empty guards). -/
def finalizeRetry (compJson : List ChatMsg → CompResp)
    (parse : String → Option String) (msgs : List ChatMsg)
    (c : String) : LoopRes :=
  let msgs2 := msgs ++
    [⟨Role.system, some retryInstrPart, [], none⟩,
     ⟨Role.assistant, some c, [], none⟩]
  match compJson msgs2 with
  | CompResp.fail st body => ⟨msgs2, LoopOut.upstream st (strTake body 800), 1, 1⟩
  | CompResp.reply c2 _ =>
    match parse ((c2.map strTrim).getD "") with
    | some j => ⟨msgs2, LoopOut.final j, 1, 1⟩
    | none => ⟨msgs2, LoopOut.noFinal, 1, 1⟩

/-- The tool-calling loop of src/unnamed/part_000 lines 362-461.  Unlike
the src/server.js copy, the assistant message just received is ALWAYS
pushed onto the history (content defaulted to the empty string, carrying
its tool calls) before any tool answer or finalization step. -/
def stepLoop (comp : List ChatMsg → CompResp)
    (compJson : List ChatMsg → CompResp) (runTool : ToolCall → String)
    (parse : String → Option String) : List ChatMsg → Nat → LoopRes
  | msgs, 0 => ⟨msgs, LoopOut.noFinal, 0, 0⟩
  | msgs, fuel + 1 =>
    match comp msgs with
    | CompResp.fail st body => ⟨msgs, LoopOut.upstream st (strTake body 800), 1, 0⟩
    | CompResp.reply content tcs =>
      let msgs1 := msgs ++ [⟨Role.assistant, some (content.getD ""), tcs, none⟩]
      if tcs.isEmpty then
        let c := (content.map strTrim).getD ""
        match parse c with
        | some j => ⟨msgs1, LoopOut.final j, 1, 0⟩
        | none => Part000.finalizeRetry compJson parse msgs1 c
      else
        let toolMsgs := tcs.map fun call => toolAnswer call (runTool call)
        let r := Part000.stepLoop comp compJson runTool parse (msgs1 ++ toolMsgs) fuel
        ⟨r.msgs, r.out, r.compCalls + 1, r.jsonCalls⟩

/-- The src/unnamed/part_000 deal-search loop entry: `for (let step = 0;
step < 8; step++)` over the seeded history. -/
def dealSearch (comp compJson : List ChatMsg → CompResp)
    (runTool : ToolCall → String) (parse : String → Option String)
    (seed : List ChatMsg) : LoopRes :=
  Part000.stepLoop comp compJson runTool parse seed 8

end Part000

/-- The external response selected after the loop: upstream failures became
502 responses inside the loop, a parsed final JSON value is returned as the
response body, and a null `finalJson` routes to the fallback envelope. -/
inductive HandlerResp where
  | status502 (st : Nat) (detail : String)
  | jsonOut (j : String)
  | fallbackOut
deriving DecidableEq

/-- Mapping from loop outcome to the external response (identical in both
files): exhaustion or double parse failure is the fallback envelope, never
an error response. -/
def respOfOut : LoopOut → HandlerResp
  | LoopOut.upstream st d => HandlerResp.status502 st d
  | LoopOut.final j => HandlerResp.jsonOut j
  | LoopOut.noFinal => HandlerResp.fallbackOut

/-- The `http_get` dispatch expression `safeHttpGet(url, max_bytes ||
200000)` (src/server.js line 381, src/unnamed/part_000 line 406): the
effective byte budget is the caller-supplied value unless it is absent or
zero (falsy), in which case the default 200000 is used. -/
def httpGetEffectiveMaxBytes (max_bytes : Option Nat) : Nat :=
  match max_bytes with
  | none => 200000
  | some n => if n == 0 then 200000 else n

/-- Modelled from the spec (section 4.1): the unsafe-address set in the
words of the specification, for comparison with `isPrivateIP`: IPv4 in
10.0.0.0/8, 172.16.0.0/12, 192.168.0.0/16, 169.254.0.0/16 or exactly
127.0.0.1; IPv6 equal to ::1, in the unique-local block (fc/fd) or the
link-local block (fe8-feb). -/
def unsafeAddrSpec : Addr → Prop
  | Addr.v4 ip =>
    ip.a = 10 ∨ (ip.a = 172 ∧ 16 ≤ ip.b ∧ ip.b ≤ 31) ∨
      (ip.a = 192 ∧ ip.b = 168) ∨ (ip.a = 169 ∧ ip.b = 254) ∨
      ip = ⟨127, 0, 0, 1⟩
  | Addr.v6 s =>
    s = "::1" ∨ strStartsWith s "fc" = true ∨ strStartsWith s "fd" = true ∨
      strStartsWith s "fe8" = true ∨ strStartsWith s "fe9" = true ∨
      strStartsWith s "fea" = true ∨ strStartsWith s "feb" = true
  | Addr.other _ => False

/-- The full resolved address set of a hostname, as concatenated in
`hostIsSafe`. -/
def resolvedAddrs (dns : Dns) (h : String) : List Addr :=
  (dns.resolve4 h).map Addr.v4 ++ (dns.resolve6 h).map Addr.v6

/-- Scenario for C1: the safe first-hop URL. -/
def c1u0 : Url := ⟨"https:", "good.example", "/page"⟩

/-- Scenario for C1: the second-hop URL whose host resolves only to a
private address. -/
def c1u1 : Url := ⟨"https:", "evil.example", "/admin"⟩

/-- Scenario for C1: DNS resolving the first host to a public address and
the second host only to 10.0.0.5. -/
def c1Dns : Dns :=
  ⟨fun h =>
    if h == "good.example" then [⟨93, 184, 216, 34⟩]
    else if h == "evil.example" then [⟨10, 0, 0, 5⟩]
    else [],
   fun _ => []⟩

/-- Scenario for C1: the network redirects the first URL to the second and
would answer 200 on the second. -/
def c1Net : Url → Except String Response :=
  fun u =>
    if u == c1u0 then
      Except.ok ⟨302, some (Except.ok c1u1), some "text/html", "https://good.example/page", [60, 62]⟩
    else if u == c1u1 then
      Except.ok ⟨200, none, some "text/html", "https://evil.example/admin", [115, 101, 99]⟩
    else Except.error "unreachable"

/-- Scenario for C1: a second-hop URL with a denylisted literal name. -/
def c1u2 : Url := ⟨"https:", "localhost", "/admin"⟩

/-- Scenario for C1: the network redirects the first URL to the denylisted
localhost URL. -/
def c1NetB : Url → Except String Response :=
  fun u =>
    if u == c1u0 then
      Except.ok ⟨302, some (Except.ok c1u2), some "text/html", "https://good.example/page", [60, 62]⟩
    else Except.error "unreachable"

/-- Scenario for C2: a DNS environment with no records at all. -/
def c2DnsEmpty : Dns := ⟨fun _ => [], fun _ => []⟩

/-- Scenario for C2: DNS resolving dns.google to the public 8.8.8.8. -/
def c2Dns : Dns :=
  ⟨fun h => if h == "dns.google" then [⟨8, 8, 8, 8⟩] else [], fun _ => []⟩

/-- Scenario for C3: an empty DNS environment (never consulted on the
denylist path). -/
def c3Dns : Dns := ⟨fun _ => [], fun _ => []⟩

/-- Scenario for C3: a network oracle that always fails (never consulted on
the denylist path). -/
def c3Net : Url → Except String Response := fun _ => Except.error "unreachable"

/-- Scenario for C7: the six hop URLs of the redirect chains. -/
def c7u (k : Nat) : Url := ⟨"https:", "h" ++ toString k ++ ".example", "/"⟩

/-- Scenario for C7: every chain host resolves to a public address. -/
def c7Dns : Dns := ⟨fun _ => [⟨203, 0, 113, 7⟩], fun _ => []⟩

/-- Scenario for C7: a chain of six redirect responses (hop k answers 301
toward hop k+1, indefinitely). -/
def c7NetLong : Url → Except String Response :=
  fun u =>
    if u == c7u 0 then Except.ok ⟨301, some (Except.ok (c7u 1)), none, "r0", []⟩
    else if u == c7u 1 then Except.ok ⟨301, some (Except.ok (c7u 2)), none, "r1", []⟩
    else if u == c7u 2 then Except.ok ⟨301, some (Except.ok (c7u 3)), none, "r2", []⟩
    else if u == c7u 3 then Except.ok ⟨301, some (Except.ok (c7u 4)), none, "r3", []⟩
    else if u == c7u 4 then Except.ok ⟨301, some (Except.ok (c7u 5)), none, "r4", []⟩
    else if u == c7u 5 then Except.ok ⟨301, some (Except.ok (c7u 0)), none, "r5", []⟩
    else Except.error "unreachable"

/-- Scenario for C7: four redirects followed by a terminal 200. -/
def c7NetShort : Url → Except String Response :=
  fun u =>
    if u == c7u 0 then Except.ok ⟨302, some (Except.ok (c7u 1)), none, "r0", []⟩
    else if u == c7u 1 then Except.ok ⟨303, some (Except.ok (c7u 2)), none, "r1", []⟩
    else if u == c7u 2 then Except.ok ⟨307, some (Except.ok (c7u 3)), none, "r2", []⟩
    else if u == c7u 3 then Except.ok ⟨308, some (Except.ok (c7u 4)), none, "r3", []⟩
    else if u == c7u 4 then
      Except.ok ⟨200, none, some "text/html", "https://h4.example/", [104, 105]⟩
    else Except.error "unreachable"

/-- Scenario for C8: a text-like terminal response with a five-byte body. -/
def c8RespText : Response :=
  ⟨200, none, some "text/html", "https://t.example/", [1, 2, 3, 4, 5]⟩

/-- Scenario for C8: a binary terminal response. -/
def c8RespBin : Response :=
  ⟨200, none, some "image/png", "https://t.example/i", [9, 9, 9]⟩

/-- Scenario for C4: the one tool call requested by the first model turn. -/
def c4Call : ToolCall := ⟨"call_1", "http_get", ""⟩

/-- Scenario for C4: the completion oracle answers the two-message seed
with a tool-calling turn and any longer history with a final answer. -/
def c4Comp : List ChatMsg → CompResp :=
  fun msgs =>
    if msgs.length == 2 then CompResp.reply (some "") [c4Call]
    else CompResp.reply (some "done") []

/-- Scenario for C4: json-mode oracle (never reached). -/
def c4CompJson : List ChatMsg → CompResp :=
  fun _ => CompResp.reply (some "done") []

/-- Scenario for C4: the tool executor result. -/
def c4RunTool : ToolCall → String := fun _ => "fetched"

/-- Scenario for C4: every string parses as JSON. -/
def c4Parse : String → Option String := fun s => some s

/-- Scenario for C4: the seeded two-message history. -/
def c4Seed : List ChatMsg :=
  [⟨Role.system, some "sys", [], none⟩, ⟨Role.user, some "q", [], none⟩]

/-- Scenario for C5: a model that requests a tool call on every turn. -/
def c5Comp : List ChatMsg → CompResp :=
  fun _ => CompResp.reply (some "") [⟨"tc", "http_get", ""⟩]

/-- Scenario for C5: json-mode oracle (never reached). -/
def c5CompJson : List ChatMsg → CompResp := fun _ => CompResp.reply (some "") []

/-- Scenario for C5: the tool executor result. -/
def c5RunTool : ToolCall → String := fun _ => "r"

/-- Scenario for C5: nothing parses as JSON. -/
def c5Parse : String → Option String := fun _ => none

/-- Scenario for C5: the seeded two-message history. -/
def c5Seed : List ChatMsg :=
  [⟨Role.system, some "sys", [], none⟩, ⟨Role.user, some "q", [], none⟩]

/-- Scenario for C9: the model answers every tools-mode request with the
non-JSON text oops. -/
def c9Comp : List ChatMsg → CompResp :=
  fun _ => CompResp.reply (some "oops") []

/-- Scenario for C9: the json-mode retry answers with the parsable text
ok. -/
def c9CompJson : List ChatMsg → CompResp :=
  fun _ => CompResp.reply (some "ok") []

/-- Scenario for C9: the tool executor result (never reached). -/
def c9RunTool : ToolCall → String := fun _ => "r"

/-- Scenario for C9: only the text ok parses as JSON. -/
def c9Parse : String → Option String :=
  fun s => if s == "ok" then some "parsed" else none

/-- Scenario for C9: the seeded two-message history. -/
def c9Seed : List ChatMsg :=
  [⟨Role.system, some "sys", [], none⟩, ⟨Role.user, some "q", [], none⟩]

/-- Scenario for C6: a large caller-supplied byte budget. -/
def c6Big : Nat := 1000000000

instance : DecidablePred unsafeAddrSpec := fun x =>
  match x with
  | Addr.v4 ip =>
    inferInstanceAs (Decidable (ip.a = 10 ∨ (ip.a = 172 ∧ 16 ≤ ip.b ∧ ip.b ≤ 31) ∨
      (ip.a = 192 ∧ ip.b = 168) ∨ (ip.a = 169 ∧ ip.b = 254) ∨ ip = ⟨127, 0, 0, 1⟩))
  | Addr.v6 s =>
    inferInstanceAs (Decidable (s = "::1" ∨ strStartsWith s "fc" = true ∨
      strStartsWith s "fd" = true ∨ strStartsWith s "fe8" = true ∨
      strStartsWith s "fe9" = true ∨ strStartsWith s "fea" = true ∨
      strStartsWith s "feb" = true))
  | Addr.other _ => inferInstanceAs (Decidable False)

theorem isPrivateIP_iff_unsafeAddrSpec (x : Addr) :
    isPrivateIP x = true ↔ unsafeAddrSpec x := by
  cases x with
  | v4 ip =>
    simp only [isPrivateIP, isPrivateIPv4, unsafeAddrSpec, Bool.or_eq_true,
      Bool.and_eq_true, decide_eq_true_eq, beq_iff_eq]
    tauto
  | v6 s =>
    simp only [isPrivateIP, isPrivateIPv6, unsafeAddrSpec, Bool.or_eq_true, beq_iff_eq]
    tauto
  | other s => simp [isPrivateIP, unsafeAddrSpec]

theorem hostIsSafe_iff (dns : Dns) (h : String) :
    hostIsSafe dns h = true ↔ ∀ x ∈ resolvedAddrs dns h, ¬ unsafeAddrSpec x := by
  have hall : ∀ l : List Addr,
      ((l.all fun ip => !isPrivateIP ip) = true ↔ ∀ x ∈ l, ¬ unsafeAddrSpec x) := by
    intro l
    simp only [List.all_eq_true, Bool.not_eq_true']
    exact forall_congr' fun x => imp_congr_right fun _ => by
      rw [← Bool.not_eq_true]
      exact not_congr (isPrivateIP_iff_unsafeAddrSpec x)
  unfold hostIsSafe resolvedAddrs
  by_cases hlen :
      ((dns.resolve4 h).map Addr.v4 ++ (dns.resolve6 h).map Addr.v6).length == 0
  · have hnil : (dns.resolve4 h).map Addr.v4 ++ (dns.resolve6 h).map Addr.v6 = [] := by
      simpa [List.length_eq_zero] using hlen
    simp [hnil]
  · rw [if_neg hlen]
    exact hall _

theorem fetchedHops_checked (dns : Dns) (net : Url → Except String Response)
    (mb : Nat) : ∀ (fuel : Nat) (s : UrlStr),
    ((safeHttpGetGo dns net mb s fuel).fetched.all fun u =>
        !hostDenied u.hostname && hostIsSafe dns u.hostname) = true := by
  intro fuel
  induction fuel with
  | zero => intro s; cases s <;> simp [safeHttpGetGo]
  | succ n ih =>
    intro s
    cases s with
    | invalid s => simp [safeHttpGetGo]
    | valid u =>
      simp only [safeHttpGetGo]
      by_cases hp : (u.protocol != "https:" && u.protocol != "http:") = true
      · simp [hp]
      · simp only [hp, if_false, Bool.false_eq_true]
        by_cases hd : hostDenied u.hostname = true
        · simp [hd]
        · simp only [hd, if_false, Bool.false_eq_true]
          by_cases hs : hostIsSafe dns u.hostname = true
          · simp only [hs, Bool.not_true, if_false, Bool.false_eq_true]
            cases hnet : net u with
            | error e => simp [hd, hs]
            | ok r =>
              cases hloc : (if redirStatus r.status then r.location else none) with
              | none => simp [hloc, hd, hs]
              | some t =>
                cases t with
                | error e => simp [hloc, hd, hs]
                | ok next => simp [hloc, hd, hs, ih]
          · simp only [Bool.not_eq_true] at hs
            simp [hs]

theorem fetched_length_le (dns : Dns) (net : Url → Except String Response)
    (mb : Nat) : ∀ (fuel : Nat) (s : UrlStr),
    (safeHttpGetGo dns net mb s fuel).fetched.length ≤ fuel := by
  intro fuel
  induction fuel with
  | zero => intro s; cases s <;> simp [safeHttpGetGo]
  | succ n ih =>
    intro s
    cases s with
    | invalid s => simp [safeHttpGetGo]
    | valid u =>
      simp only [safeHttpGetGo]
      by_cases hp : (u.protocol != "https:" && u.protocol != "http:") = true
      · simp [hp]
      · simp only [hp, if_false, Bool.false_eq_true]
        by_cases hd : hostDenied u.hostname = true
        · simp [hd]
        · simp only [hd, if_false, Bool.false_eq_true]
          by_cases hs : hostIsSafe dns u.hostname = true
          · simp only [hs, Bool.not_true, if_false, Bool.false_eq_true]
            cases hnet : net u with
            | error e => simp
            | ok r =>
              cases hloc : (if redirStatus r.status then r.location else none) with
              | none => simp [hloc]
              | some t =>
                cases t with
                | error e => simp [hloc]
                | ok next =>
                  simp only [hloc, List.length_cons]
                  exact Nat.succ_le_succ (ih _)
          · simp only [Bool.not_eq_true] at hs
            simp [hs]

theorem result_text_le (dns : Dns) (net : Url → Except String Response)
    (mb : Nat) : ∀ (fuel : Nat) (s : UrlStr),
    (((safeHttpGetGo dns net mb s fuel).result.text).getD []).length ≤ mb := by
  intro fuel
  induction fuel with
  | zero => intro s; cases s <;> simp [safeHttpGetGo, errResult]
  | succ n ih =>
    intro s
    cases s with
    | invalid s => simp [safeHttpGetGo, errResult]
    | valid u =>
      simp only [safeHttpGetGo]
      by_cases hp : (u.protocol != "https:" && u.protocol != "http:") = true
      · simp [hp, errResult]
      · simp only [hp, if_false, Bool.false_eq_true]
        by_cases hd : hostDenied u.hostname = true
        · simp [hd, errResult]
        · simp only [hd, if_false, Bool.false_eq_true]
          by_cases hs : hostIsSafe dns u.hostname = true
          · simp only [hs, Bool.not_true, if_false, Bool.false_eq_true]
            cases hnet : net u with
            | error e => simp [errResult]
            | ok r =>
              cases hloc : (if redirStatus r.status then r.location else none) with
              | none =>
                simp only [hloc, terminalResult]
                split
                · simp [List.length_take]
                · simp
              | some t =>
                cases t with
                | error e => simp [hloc, errResult]
                | ok next => simp only [hloc]; exact ih _
          · simp only [Bool.not_eq_true] at hs
            simp [hs, errResult]

theorem finalizeRetry_counts (cj : List ChatMsg → CompResp)
    (p : String → Option String) (m : List ChatMsg) (e : Option String) :
    (finalizeRetry cj p m e).compCalls = 1 ∧ (finalizeRetry cj p m e).jsonCalls = 1 := by
  cases hcj : cj (m ++ [⟨Role.system, some retryInstrServer, [], none⟩,
      ⟨Role.assistant, e, [], none⟩]) with
  | fail st b => simp [finalizeRetry, hcj]
  | reply c2 t =>
    cases hct : c2.map strTrim with
    | some s2 =>
      cases hp2 : p s2 with
      | some j => simp [finalizeRetry, hcj, hct, hp2]
      | none => simp [finalizeRetry, hcj, hct, hp2]
    | none => simp [finalizeRetry, hcj, hct]

theorem finalizeRetryP_counts (cj : List ChatMsg → CompResp)
    (p : String → Option String) (m : List ChatMsg) (c : String) :
    (Part000.finalizeRetry cj p m c).compCalls = 1 ∧
      (Part000.finalizeRetry cj p m c).jsonCalls = 1 := by
  cases hcj : cj (m ++ [⟨Role.system, some retryInstrPart, [], none⟩,
      ⟨Role.assistant, some c, [], none⟩]) with
  | fail st b => simp [Part000.finalizeRetry, hcj]
  | reply c2 t =>
    cases hp2 : p ((c2.map strTrim).getD "") with
    | some j => simp [Part000.finalizeRetry, hcj, hp2]
    | none => simp [Part000.finalizeRetry, hcj, hp2]

theorem stepLoop_compCalls_le (comp compJson : List ChatMsg → CompResp)
    (rt : ToolCall → String) (p : String → Option String) :
    ∀ (fuel : Nat) (msgs : List ChatMsg),
      (stepLoop comp compJson rt p msgs fuel).compCalls ≤ fuel := by
  intro fuel
  induction fuel with
  | zero => intro msgs; simp [stepLoop]
  | succ n ih =>
    intro msgs
    simp only [stepLoop]
    cases hc : comp msgs with
    | fail st b => simp
    | reply content tcs =>
      by_cases ht : tcs.isEmpty = true
      · simp only [ht, if_true]
        cases hct : content.map strTrim with
        | some c =>
          cases hpc : p c with
          | some j => simp [hpc]
          | none => simp [hpc, (finalizeRetry_counts compJson p msgs (some c)).1]
        | none => simp [(finalizeRetry_counts compJson p msgs none).1]
      · simp only [ht, if_false, Bool.false_eq_true]
        exact Nat.succ_le_succ (ih _)

theorem stepLoopP_compCalls_le (comp compJson : List ChatMsg → CompResp)
    (rt : ToolCall → String) (p : String → Option String) :
    ∀ (fuel : Nat) (msgs : List ChatMsg),
      (Part000.stepLoop comp compJson rt p msgs fuel).compCalls ≤ fuel := by
  intro fuel
  induction fuel with
  | zero => intro msgs; simp [Part000.stepLoop]
  | succ n ih =>
    intro msgs
    simp only [Part000.stepLoop]
    cases hc : comp msgs with
    | fail st b => simp
    | reply content tcs =>
      by_cases ht : tcs.isEmpty = true
      · simp only [ht, if_true]
        cases hpc : p ((content.map strTrim).getD "") with
        | some j => simp [hpc]
        | none =>
          simp [hpc, (finalizeRetryP_counts compJson p
            (msgs ++ [⟨Role.assistant, some (content.getD ""), tcs, none⟩])
            ((content.map strTrim).getD "")).1]
      · simp only [ht, if_false, Bool.false_eq_true]
        exact Nat.succ_le_succ (ih _)

theorem isPrivateIP_eq_part (x : Addr) : Part000.isPrivateIP x = isPrivateIP x := by
  cases x <;> rfl

theorem hostIsSafe_eq_part (dns : Dns) (h : String) :
    Part000.hostIsSafe dns h = hostIsSafe dns h := by
  unfold hostIsSafe Part000.hostIsSafe
  simp only [isPrivateIP_eq_part]

theorem go_eq_part (dns : Dns) (net : Url → Except String Response) (mb : Nat) :
    ∀ (fuel : Nat) (s : UrlStr),
      safeHttpGetGo dns net mb s fuel = Part000.safeHttpGetGo dns net mb s fuel := by
  intro fuel
  induction fuel with
  | zero => intro s; cases s <;> rfl
  | succ n ih =>
    intro s
    cases s with
    | invalid s => rfl
    | valid u =>
      simp only [safeHttpGetGo, Part000.safeHttpGetGo, hostIsSafe_eq_part, ih]

/-- Claim C1: every hop of `safeHttpGet`, the initial URL included, passes
the full host safety check (literal denylist and DNS check) before any
request is issued to it; a redirect chain whose first host passes but whose
second hop resolves only to private addresses returns ok false with error
private_ip_blocked (blocked_host for a denylisted literal name), and no
request is ever sent to the forbidden host. -/
theorem safeHttpGet_every_hop_checked :
    (∀ (dns : Dns) (net : Url → Except String Response) (mb : Nat) (s : UrlStr),
        ((safeHttpGetGo dns net mb s 5).fetched.all fun u =>
            !hostDenied u.hostname && hostIsSafe dns u.hostname) = true) ∧
    safeHttpGet c1Dns c1Net (UrlStr.valid c1u0) 200000 =
      errResult "private_ip_blocked" ∧
    (safeHttpGetGo c1Dns c1Net 200000 (UrlStr.valid c1u0) 5).fetched = [c1u0] ∧
    safeHttpGet c1Dns c1NetB (UrlStr.valid c1u0) 200000 =
      errResult "blocked_host" ∧
    (safeHttpGetGo c1Dns c1NetB 200000 (UrlStr.valid c1u0) 5).fetched = [c1u0] :=
  ⟨fun dns net mb s => fetchedHops_checked dns net mb 5 s,
   by decide, by decide, by decide, by decide⟩

/-- Claim C2: `hostIsSafe` is true when resolution yields no addresses, and
otherwise true exactly when every resolved address is outside the unsafe
set of the specification; the private classification agrees with the
specification address-for-address, and the public 8.8.8.8 is safe. -/
theorem hostIsSafe_matches_spec :
    (∀ (dns : Dns) (h : String),
        hostIsSafe dns h = true ↔ ∀ x ∈ resolvedAddrs dns h, ¬ unsafeAddrSpec x) ∧
    (∀ x : Addr, isPrivateIP x = true ↔ unsafeAddrSpec x) ∧
    hostIsSafe c2DnsEmpty "unresolvable.example" = true ∧
    hostIsSafe c2Dns "dns.google" = true ∧
    ¬ unsafeAddrSpec (Addr.v4 ⟨8, 8, 8, 8⟩) :=
  ⟨hostIsSafe_iff, isPrivateIP_iff_unsafeAddrSpec, by decide, by decide, by decide⟩

/-- Witness for C2: the main equivalence applied at the concrete 8.8.8.8
environment. -/
theorem hostIsSafe_matches_spec_witness :
    hostIsSafe c2Dns "dns.google" = true :=
  (hostIsSafe_matches_spec.1 c2Dns "dns.google").mpr (by decide)

/-- Claim C3 counterexample: a URL whose hostname is localhost but whose
scheme is ftp is rejected as unsupported_protocol, not blocked_host, so
the claim as stated (over every URL) fails. -/
theorem blocked_host_claim_ctr :
    safeHttpGet c3Dns c3Net (UrlStr.valid ⟨"ftp:", "localhost", "/"⟩) 200000 =
      errResult "unsupported_protocol" ∧
    errResult "unsupported_protocol" ≠ errResult "blocked_host" := by decide

/-- Claim C3 (amended): for every http or https URL whose hostname is on
the literal denylist, `safeHttpGet` returns ok false with error
blocked_host, performs no DNS resolution and issues no network request. -/
theorem blocked_host_without_resolution (dns : Dns)
    (net : Url → Except String Response) (mb : Nat) (u : Url)
    (hp : u.protocol = "http:" ∨ u.protocol = "https:")
    (hd : hostDenied u.hostname = true) :
    safeHttpGet dns net (UrlStr.valid u) mb = errResult "blocked_host" ∧
    (safeHttpGetGo dns net mb (UrlStr.valid u) 5).fetched = [] ∧
    (safeHttpGetGo dns net mb (UrlStr.valid u) 5).dnsChecked = [] := by
  rcases hp with hp | hp <;>
    simp [safeHttpGet, safeHttpGetGo, hp, hd]

/-- Witness for the amended C3: the uppercase LocalHost hostname over http
is blocked without resolution or fetch. -/
theorem blocked_host_without_resolution_witness :
    safeHttpGet c3Dns c3Net (UrlStr.valid ⟨"http:", "LocalHost", "/x"⟩) 200000 =
      errResult "blocked_host" ∧
    (safeHttpGetGo c3Dns c3Net 200000 (UrlStr.valid ⟨"http:", "LocalHost", "/x"⟩) 5).fetched = [] ∧
    (safeHttpGetGo c3Dns c3Net 200000 (UrlStr.valid ⟨"http:", "LocalHost", "/x"⟩) 5).dnsChecked = [] :=
  blocked_host_without_resolution c3Dns c3Net 200000 ⟨"http:", "LocalHost", "/x"⟩
    (Or.inl rfl) (by decide)

/-- Claim C4 (code defect evidence): in the src/server.js loop a tool-calling
assistant turn is never appended to the history — after a turn with one tool
call the history is the seed plus the bare tool answer, and no message in it
carries the tool-call request; the src/unnamed/part_000 loop appends the
assistant message in full before the tool answer, as the claim requires. -/
theorem assistant_turn_dropped_in_server :
    (dealSearchServer c4Comp c4CompJson c4RunTool c4Parse c4Seed).msgs =
      c4Seed ++ [⟨Role.tool, some "fetched", [], some "call_1"⟩] ∧
    ((dealSearchServer c4Comp c4CompJson c4RunTool c4Parse c4Seed).msgs.all fun m =>
        !(m.role == Role.assistant)) = true ∧
    (Part000.dealSearch c4Comp c4CompJson c4RunTool c4Parse c4Seed).msgs =
      c4Seed ++ [⟨Role.assistant, some "", [c4Call], none⟩,
                 ⟨Role.tool, some "fetched", [], some "call_1"⟩,
                 ⟨Role.assistant, some "done", [], none⟩] := by decide

/-- Claim C5 counterexample: with a model that requests a tool call on every
turn, the src/server.js loop issues exactly 6 completion requests, not the
claimed budget of 8. -/
theorem step_budget_ctr :
    (dealSearchServer c5Comp c5CompJson c5RunTool c5Parse c5Seed).compCalls = 6 ∧
    (dealSearchServer c5Comp c5CompJson c5RunTool c5Parse c5Seed).compCalls ≠ 8 := by
  decide

/-- Claim C5 (amended): the loop budget is 6 iterations in src/server.js and
8 in src/unnamed/part_000; a model that always requests tools exhausts
exactly at the respective budget, and exhaustion routes to the fallback
envelope rather than an error response. -/
theorem step_budget_exhaustion :
    (dealSearchServer c5Comp c5CompJson c5RunTool c5Parse c5Seed).compCalls = 6 ∧
    (dealSearchServer c5Comp c5CompJson c5RunTool c5Parse c5Seed).out = LoopOut.noFinal ∧
    respOfOut (dealSearchServer c5Comp c5CompJson c5RunTool c5Parse c5Seed).out =
      HandlerResp.fallbackOut ∧
    (Part000.dealSearch c5Comp c5CompJson c5RunTool c5Parse c5Seed).compCalls = 8 ∧
    (Part000.dealSearch c5Comp c5CompJson c5RunTool c5Parse c5Seed).out = LoopOut.noFinal ∧
    respOfOut (Part000.dealSearch c5Comp c5CompJson c5RunTool c5Parse c5Seed).out =
      HandlerResp.fallbackOut ∧
    (∀ (comp compJson : List ChatMsg → CompResp) (rt : ToolCall → String)
        (p : String → Option String) (seed : List ChatMsg),
        (dealSearchServer comp compJson rt p seed).compCalls ≤ 6) ∧
    (∀ (comp compJson : List ChatMsg → CompResp) (rt : ToolCall → String)
        (p : String → Option String) (seed : List ChatMsg),
        (Part000.dealSearch comp compJson rt p seed).compCalls ≤ 8) :=
  ⟨by decide, by decide, by decide, by decide, by decide, by decide,
   fun comp compJson rt p seed => stepLoop_compCalls_le comp compJson rt p 6 seed,
   fun comp compJson rt p seed => stepLoopP_compCalls_le comp compJson rt p 8 seed⟩

/-- Claim C6 counterexample: there is no fixed ceiling bounding the
effective max_bytes of the http_get dispatch — the caller-supplied value is
used as-is whenever it is nonzero. -/
theorem max_bytes_ceiling_ctr :
    httpGetEffectiveMaxBytes (some c6Big) = c6Big ∧
    ¬ ∃ C : Nat, ∀ v : Option Nat, httpGetEffectiveMaxBytes v ≤ C := by
  constructor
  · decide
  · rintro ⟨C, hC⟩
    have h := hC (some (C + 1))
    simp [httpGetEffectiveMaxBytes] at h

/-- Claim C6 (amended): the effective max_bytes is the caller-supplied
value when present and nonzero, with default 200000 otherwise; it exceeds
every fixed candidate ceiling for some caller value. -/
theorem max_bytes_no_ceiling :
    httpGetEffectiveMaxBytes none = 200000 ∧
    httpGetEffectiveMaxBytes (some 0) = 200000 ∧
    (∀ n : Nat, httpGetEffectiveMaxBytes (some (n + 1)) = n + 1) ∧
    (∀ C : Nat, C < httpGetEffectiveMaxBytes (some (C + 1))) := by
  refine ⟨rfl, rfl, fun n => ?_, fun C => ?_⟩
  · simp [httpGetEffectiveMaxBytes]
  · simp [httpGetEffectiveMaxBytes]

/-- Claim C7: `safeHttpGet` follows at most 5 hops — a chain of six
redirects yields too_many_redirects after exactly five requests, a chain of
four redirects ending in a 200 succeeds with that response, and in general
no run issues more than five requests. -/
theorem redirect_hop_ceiling :
    safeHttpGet c7Dns c7NetLong (UrlStr.valid (c7u 0)) 200000 =
      errResult "too_many_redirects" ∧
    (safeHttpGetGo c7Dns c7NetLong 200000 (UrlStr.valid (c7u 0)) 5).fetched =
      [c7u 0, c7u 1, c7u 2, c7u 3, c7u 4] ∧
    safeHttpGet c7Dns c7NetShort (UrlStr.valid (c7u 0)) 200000 =
      ⟨true, 200, some "https://h4.example/", some "text/html", some [104, 105], none⟩ ∧
    (∀ (dns : Dns) (net : Url → Except String Response) (mb : Nat) (s : UrlStr),
        (safeHttpGetGo dns net mb s 5).fetched.length ≤ 5) :=
  ⟨by decide, by decide, by decide,
   fun dns net mb s => fetched_length_le dns net mb 5 s⟩

/-- Claim C8: for a terminal response the retained body text is exactly the
first min(max_bytes, body length) bytes when the content type is text-like
and empty for any other content type, and the retained byte count of any
`safeHttpGet` result never exceeds max_bytes. -/
theorem body_text_truncation :
    (∀ (mb : Nat) (r : Response),
        isTextLike (r.contentType.getD "") = true →
          (terminalResult mb r).text = some (r.body.take (min mb r.body.length))) ∧
    (∀ (mb : Nat) (r : Response),
        isTextLike (r.contentType.getD "") = false →
          (terminalResult mb r).text = some []) ∧
    (∀ (mb : Nat) (r : Response),
        (((terminalResult mb r).text).getD []).length ≤ mb) ∧
    (∀ (dns : Dns) (net : Url → Except String Response) (mb : Nat) (s : UrlStr),
        (((safeHttpGet dns net s mb).text).getD []).length ≤ mb) := by
  refine ⟨fun mb r h => ?_, fun mb r h => ?_, fun mb r => ?_, fun dns net mb s => ?_⟩
  · simp [terminalResult, h]
  · simp [terminalResult, h]
  · simp only [terminalResult]
    split
    · simp [List.length_take]
    · simp
  · exact result_text_le dns net mb 5 s

/-- Witness for C8: the truncation equalities applied at the concrete
five-byte text response and the binary response, with max_bytes 3. -/
theorem body_text_truncation_witness :
    (terminalResult 3 c8RespText).text = some [1, 2, 3] ∧
    (terminalResult 3 c8RespBin).text = some [] :=
  ⟨(body_text_truncation.1 3 c8RespText (by decide)).trans (by decide),
   body_text_truncation.2.1 3 c8RespBin (by decide)⟩

/-- Claim C9: when the model answers without tool calls and the content
fails to parse, both loops append exactly one corrective system message and
one assistant echo of the (trimmed) malformed content, issue exactly one
json-mode completion request, make no further tools-mode requests, and the
outcome is the parse of the second reply (fallback when it fails too). -/
theorem single_corrective_retry (comp compJson : List ChatMsg → CompResp)
    (rt : ToolCall → String) (parse : String → Option String)
    (msgs : List ChatMsg) (fuel : Nat) (content c2 c2p : String)
    (h1 : comp msgs = CompResp.reply (some content) [])
    (h2 : parse (strTrim content) = none)
    (h3 : compJson (msgs ++
        [⟨Role.system, some retryInstrServer, [], none⟩,
         ⟨Role.assistant, some (strTrim content), [], none⟩]) =
      CompResp.reply (some c2) [])
    (h3p : compJson (msgs ++
        [⟨Role.assistant, some content, [], none⟩,
         ⟨Role.system, some retryInstrPart, [], none⟩,
         ⟨Role.assistant, some (strTrim content), [], none⟩]) =
      CompResp.reply (some c2p) []) :
    (stepLoop comp compJson rt parse msgs (fuel + 1)).compCalls = 1 ∧
    (stepLoop comp compJson rt parse msgs (fuel + 1)).jsonCalls = 1 ∧
    (stepLoop comp compJson rt parse msgs (fuel + 1)).msgs = msgs ++
      [⟨Role.system, some retryInstrServer, [], none⟩,
       ⟨Role.assistant, some (strTrim content), [], none⟩] ∧
    (stepLoop comp compJson rt parse msgs (fuel + 1)).out =
      (match parse (strTrim c2) with
       | some j => LoopOut.final j
       | none => LoopOut.noFinal) ∧
    (Part000.stepLoop comp compJson rt parse msgs (fuel + 1)).compCalls = 1 ∧
    (Part000.stepLoop comp compJson rt parse msgs (fuel + 1)).jsonCalls = 1 ∧
    (Part000.stepLoop comp compJson rt parse msgs (fuel + 1)).msgs = msgs ++
      [⟨Role.assistant, some content, [], none⟩,
       ⟨Role.system, some retryInstrPart, [], none⟩,
       ⟨Role.assistant, some (strTrim content), [], none⟩] ∧
    (Part000.stepLoop comp compJson rt parse msgs (fuel + 1)).out =
      (match parse (strTrim c2p) with
       | some j => LoopOut.final j
       | none => LoopOut.noFinal) := by
  have hsrv : stepLoop comp compJson rt parse msgs (fuel + 1) =
      finalizeRetry compJson parse msgs (some (strTrim content)) := by
    simp [stepLoop, h1, h2]
  have hpart : Part000.stepLoop comp compJson rt parse msgs (fuel + 1) =
      Part000.finalizeRetry compJson parse
        (msgs ++ [⟨Role.assistant, some content, [], none⟩]) (strTrim content) := by
    simp [Part000.stepLoop, h1, h2]
  rw [hsrv, hpart]
  unfold finalizeRetry Part000.finalizeRetry
  simp only [List.append_assoc, List.singleton_append, List.cons_append,
    List.nil_append, h3, h3p]
  cases hc2 : parse (strTrim c2) <;> cases hc2p : parse (strTrim c2p) <;>
    simp [hc2, hc2p]

/-- Witness for C9: the retry behavior at the concrete oracles, where the
first answer oops fails to parse and the json-mode answer ok parses. -/
theorem single_corrective_retry_witness :
    (stepLoop c9Comp c9CompJson c9RunTool c9Parse c9Seed 6).jsonCalls = 1 ∧
    (stepLoop c9Comp c9CompJson c9RunTool c9Parse c9Seed 6).out = LoopOut.final "parsed" ∧
    (Part000.stepLoop c9Comp c9CompJson c9RunTool c9Parse c9Seed 6).jsonCalls = 1 ∧
    (Part000.stepLoop c9Comp c9CompJson c9RunTool c9Parse c9Seed 6).out = LoopOut.final "parsed" := by
  have h := single_corrective_retry c9Comp c9CompJson c9RunTool c9Parse c9Seed 5
    "oops" "ok" "ok" rfl (by decide) rfl rfl
  refine ⟨h.2.1, ?_, h.2.2.2.2.2.1, ?_⟩
  · rw [h.2.2.2.1]; decide
  · rw [h.2.2.2.2.2.2.2]; decide

/-- Claim C10: the fetch subsystem is duplicated identically across the two
source files — the two embeddings of `isPrivateIPv4`, `isPrivateIPv6`,
`isPrivateIP`, `hostIsSafe`, the fetch loop and `safeHttpGet` agree on all
inputs and environments. -/
theorem fetch_subsystem_duplicated :
    (∀ ip : IPv4, isPrivateIPv4 ip = Part000.isPrivateIPv4 ip) ∧
    (∀ ip : String, isPrivateIPv6 ip = Part000.isPrivateIPv6 ip) ∧
    (∀ x : Addr, isPrivateIP x = Part000.isPrivateIP x) ∧
    (∀ (dns : Dns) (h : String), hostIsSafe dns h = Part000.hostIsSafe dns h) ∧
    (∀ (dns : Dns) (net : Url → Except String Response) (mb : Nat)
        (s : UrlStr) (fuel : Nat),
        safeHttpGetGo dns net mb s fuel = Part000.safeHttpGetGo dns net mb s fuel) ∧
    (∀ (dns : Dns) (net : Url → Except String Response) (s : UrlStr) (mb : Nat),
        safeHttpGet dns net s mb = Part000.safeHttpGet dns net s mb) :=
  ⟨fun _ => rfl, fun _ => rfl, fun x => (isPrivateIP_eq_part x).symm,
   fun dns h => (hostIsSafe_eq_part dns h).symm,
   fun dns net mb s fuel => go_eq_part dns net mb fuel s,
   fun dns net s mb => by
     unfold safeHttpGet Part000.safeHttpGet
     rw [go_eq_part dns net mb 5 s]⟩
